import Mathlib

/-!
Verification of the config package of go-libp2p: the constructor resolver
(`TransportConstructor`, `SecurityConstructor`, `MuxerConstructor`) and the
three aggregators (`makeTransports`, `makeSecurityTransport`, `makeMuxer`).

The Go code is embedded shallowly:

* Go reflect types that the package names (reflect_types.go, transport.go:19)
  become the inductive `GoType`; Go's structural interface satisfaction
  (`reflect.Type.Implements`) becomes the decidable relation `implements`.
* A user-supplied factory function becomes a record of its declared
  parameter types, declared result types, and its dynamic behaviour
  (`call`).
* Fallible Go results `(T, error)` become `GoResult T`; a Go runtime panic
  (nil function call, failed type assertion) is the `fault` constructor, kept
  distinct from an ordinary returned error.
* The host, its peerstore and the upgrader become plain records; opaque
  handles (network, protector, filters, key material) are numbers.

Every definition mirrors its Go source statement by statement, including the
places where the code deviates from its apparent intent (the duplicate-ID
check that never fills its set, the inverted length test in `makeMuxer`, the
`break outer` in the argument-resolution loops, and the result-shape check
against `transportType` in all three normalizers).
-/

namespace GoLibp2p

/-- The Go reflect types the config package manipulates (reflect_types.go and
transport.go:19).  Interface types carry an I suffix; concrete implementation
types carry a T suffix.  `otherTy` stands for any further type a caller's
factory may mention. -/
inductive GoType where
  | errorTy
  | upgraderPtr
  | hostI
  | networkI
  | muxTransportI
  | securityTransportI
  | protectorI
  | filtersPtr
  | peerIDTy
  | privKeyI
  | pubKeyI
  | peerstoreI
  | netTransportI
  | tcpT
  | wsT
  | secioT
  | insecureT
  | ssmuxerT
  | blankMsmuxT
  | yamuxT
  | mplexT
  | otherTy (name : String)
  deriving DecidableEq, BEq, Repr

/-- Unqualified name of a reflect type, as `reflect.Type.Name()` renders it in
the "unexpected type" error message. -/
def goTypeName : GoType → String
  | GoType.errorTy => "error"
  | GoType.upgraderPtr => "Upgrader"
  | GoType.hostI => "Host"
  | GoType.networkI => "Network"
  | GoType.muxTransportI => "Transport"
  | GoType.securityTransportI => "Transport"
  | GoType.protectorI => "Protector"
  | GoType.filtersPtr => "Filters"
  | GoType.peerIDTy => "ID"
  | GoType.privKeyI => "PrivKey"
  | GoType.pubKeyI => "PubKey"
  | GoType.peerstoreI => "Peerstore"
  | GoType.netTransportI => "Transport"
  | GoType.tcpT => "TcpTransport"
  | GoType.wsT => "WebsocketTransport"
  | GoType.secioT => "Transport"
  | GoType.insecureT => "Transport"
  | GoType.ssmuxerT => "SSMuxer"
  | GoType.blankMsmuxT => "Transport"
  | GoType.yamuxT => "Transport"
  | GoType.mplexT => "Transport"
  | GoType.otherTy n => n

/-- Go structural satisfaction `t.Implements(u)` between the types above.
The three component interfaces are implemented by their concrete
implementations: transport.Transport by the TCP and WebSocket transports,
security.Transport by secio, the insecure transport and the csms SSMuxer,
mux.Transport by the multistream blank transport, yamux and mplex.  The
remaining required types are matched only by themselves (none of the other
modelled types has their method set; for a concrete required type Go would
demand assignability, which is type equality here). -/
def implements (t u : GoType) : Bool :=
  match u with
  | GoType.netTransportI =>
      t == GoType.netTransportI || t == GoType.tcpT || t == GoType.wsT
  | GoType.securityTransportI =>
      t == GoType.securityTransportI || t == GoType.secioT ||
      t == GoType.insecureT || t == GoType.ssmuxerT
  | GoType.muxTransportI =>
      t == GoType.muxTransportI || t == GoType.blankMsmuxT ||
      t == GoType.yamuxT || t == GoType.mplexT
  | u => t == u

/-- Result of running a piece of Go code: a value, a returned error, or a
runtime panic (`fault`), which the pure embedding keeps as data. -/
inductive GoResult (α : Type) where
  | ok (val : α)
  | err (msg : String)
  | fault (msg : String)

/-- A peerstore: private and public keys looked up by peer ID (key material
is opaque, modelled as a number). -/
structure Peerstore where
  privKey : String → Nat
  pubKey : String → Nat

/-- The live host context: `h.ID()`, `h.Network()` (opaque handle) and
`h.Peerstore()`. -/
structure Host where
  id : String
  network : Nat
  peerstore : Peerstore

/-- A security component value (dynamic type of a Go security.Transport):
the raw insecure transport, a secio transport, a csms SSMuxer holding keyed
sub-transports, or any other implementation. -/
inductive SecComponent where
  | insecure (localID : String)
  | secio (localID : String) (privateKey : Nat)
  | ssmuxer (entries : List (String × SecComponent))
  | other (name : String)

/-- A stream-multiplexer component value: the yamux or mplex default
transport, a multistream muxer holding keyed sub-transports, or any other
implementation. -/
inductive MuxComponent where
  | yamuxDefault
  | mplexDefault
  | msmux (entries : List (String × MuxComponent))
  | other (name : String)

/-- The transport upgrader (`*tptu.Upgrader`): the already-resolved muxer and
security dispatchers plus opaque protector and filters. -/
structure Upgrader where
  muxer : MuxComponent
  secure : SecComponent
  protector : Nat
  filters : Nat

/-- A network transport component value: the TCP or WebSocket default (each
remembering the upgrader it was built around) or any other implementation. -/
inductive TptComponent where
  | tcp (u : Upgrader)
  | ws (u : Upgrader)
  | other (name : String)

/-- SecC, the deferred security-transport constructor type (security.go:16). -/
def SecC := Host → GoResult SecComponent

/-- MsSecC, a security constructor paired with its protocol ID
(security.go:20). -/
structure MsSecC where
  secC : SecC
  ID : String

/-- MuxC, the deferred multiplexer constructor type (muxer.go:15). -/
def MuxC := Host → GoResult MuxComponent

/-- MsMuxC, a multiplexer constructor paired with its protocol ID
(muxer.go:19). -/
structure MsMuxC where
  muxC : MuxC
  ID : String

/-- TptC, the deferred transport constructor type (transport.go:17). -/
def TptC := Host → Upgrader → GoResult TptComponent

/-- The protocol ID of the secio security transport (go-libp2p-secio). -/
def secioID : String := "/secio/1.0.0"

/-- The protocol ID of the insecure (plaintext) security transport
(go-conn-security/insecure). -/
def insecureID : String := "/plaintext/1.0.0"

/-- The error returned when a registered security factory resolves to the raw
insecure transport (security.go:143). -/
def insecureErrMsg : String :=
  "cannot construct libp2p with an insecure transport, set the Insecure config option instead"

/-- The *insecure.Transport type assertion of security.go:142: true exactly
when the dynamic type of the component is the raw insecure transport itself —
a wrapper (such as an SSMuxer with an insecure sub-transport) is not
recognised. -/
def isInsecureTransport : SecComponent → Bool
  | SecComponent.insecure _ => true
  | _ => false

/-- makeInsecureTransport (security.go:122-126): the dedicated
disable-security path wraps the raw insecure transport for the host's ID in
a fresh SSMuxer under the plaintext protocol ID. -/
def makeInsecureTransport (id : String) : SecComponent :=
  SecComponent.ssmuxer [(insecureID, SecComponent.insecure id)]

/-- The duplicate-ID pre-check loop of makeSecurityTransport
(security.go:131-136).  The Go loop tests membership of each ID in
`transportSet` but never inserts anything into that set, so with the empty
initial set the check cannot fire on any list. -/
def securityDupCheck (transportSet : List String) : List MsSecC → Option String
  | [] => none
  | tptC :: rest =>
    if transportSet.contains tptC.ID then some tptC.ID
    else securityDupCheck transportSet rest

/-- The factory-invocation loop of makeSecurityTransport (security.go:137-146):
invoke each constructor in order against the host, return the first error,
reject a component whose dynamic type is the raw insecure transport, and
otherwise add it to the muxer under its ID. -/
def securityInstallLoop (h : Host) (secMuxer : List (String × SecComponent)) :
    List MsSecC → GoResult (List (String × SecComponent))
  | [] => GoResult.ok secMuxer
  | tptC :: rest =>
    match tptC.secC h with
    | GoResult.fault m => GoResult.fault m
    | GoResult.err e => GoResult.err e
    | GoResult.ok tpt =>
      if isInsecureTransport tpt then GoResult.err insecureErrMsg
      else securityInstallLoop h (secMuxer ++ [(tptC.ID, tpt)]) rest

/-- makeSecurityTransport (security.go:128-156): on a non-empty list run the
duplicate check and then the invocation loop; on an empty list install the
default secio transport bound to the host's own ID and private key. -/
def makeSecurityTransport (h : Host) (tpts : List MsSecC) :
    GoResult SecComponent :=
  if 0 < tpts.length then
    match securityDupCheck [] tpts with
    | some id => GoResult.err ("duplicate security transport: " ++ id)
    | none =>
      match securityInstallLoop h [] tpts with
      | GoResult.ok entries => GoResult.ok (SecComponent.ssmuxer entries)
      | GoResult.err e => GoResult.err e
      | GoResult.fault m => GoResult.fault m
  else
    GoResult.ok (SecComponent.ssmuxer
      [(secioID, SecComponent.secio h.id (h.peerstore.privKey h.id))])

/-- The duplicate-ID pre-check loop of makeMuxer (muxer.go:116-121), with the
same missing insertion into `transportSet` as its security sibling. -/
def muxerDupCheck (transportSet : List String) : List MsMuxC → Option String
  | [] => none
  | tptC :: rest =>
    if transportSet.contains tptC.ID then some tptC.ID
    else muxerDupCheck transportSet rest

/-- The factory-invocation loop of makeMuxer (muxer.go:122-128): invoke each
constructor in order, return the first error, and add each result to the
muxer under its ID (there is no forbidden-component rule for muxers). -/
def muxerInstallLoop (h : Host) (muxMuxer : List (String × MuxComponent)) :
    List MsMuxC → GoResult (List (String × MuxComponent))
  | [] => GoResult.ok muxMuxer
  | tptC :: rest =>
    match tptC.muxC h with
    | GoResult.fault m => GoResult.fault m
    | GoResult.err e => GoResult.err e
    | GoResult.ok tpt => muxerInstallLoop h (muxMuxer ++ [(tptC.ID, tpt)]) rest

/-- makeMuxer (muxer.go:113-134).  The source tests `len(tpts) == 0` where its
siblings test `> 0`: the duplicate check and the invocation loop run only when
the list is EMPTY (so they do nothing and an empty muxer is returned), and any
non-empty list is answered with the two built-in defaults, the supplied
factories never being invoked. -/
def makeMuxer (h : Host) (tpts : List MsMuxC) : GoResult MuxComponent :=
  if tpts.length = 0 then
    match muxerDupCheck [] tpts with
    | some id => GoResult.err ("duplicate muxer transport: " ++ id)
    | none =>
      match muxerInstallLoop h [] tpts with
      | GoResult.ok entries => GoResult.ok (MuxComponent.msmux entries)
      | GoResult.err e => GoResult.err e
      | GoResult.fault m => GoResult.fault m
  else
    GoResult.ok (MuxComponent.msmux
      [("/yamux/1.0.0", MuxComponent.yamuxDefault),
       ("/mplex/6.3.0", MuxComponent.mplexDefault)])

/-- A dynamic value a security factory can be given as an argument: the
values produced by the securityArgTypes palette (security.go:25-53). -/
inductive SecArg where
  | host (h : Host)
  | network (n : Nat)
  | peerID (id : String)
  | privKey (k : Nat)
  | pubKey (k : Nat)
  | peerstore (p : Peerstore)

/-- A dynamic value a security factory can return: a security component, an
error slot (`none` = nil error), or something of another type. -/
inductive SecOutVal where
  | comp (c : SecComponent)
  | errVal (e : Option String)
  | otherVal (name : String)

/-- A user-supplied factory function offered to SecurityConstructor: its
declared parameter types, declared result types, and dynamic behaviour. -/
structure SecGoFunc where
  inTypes : List GoType
  outTypes : List GoType
  call : List SecArg → List SecOutVal

/-- The argument an `interface{}` parameter of SecurityConstructor can hold:
a value already implementing security.Transport, a function, or anything
else. -/
inductive SecDescriptor where
  | inst (t : SecComponent)
  | fn (f : SecGoFunc)
  | nonFunc (name : String)

/-- securityArgTypes (security.go:25-53): the capability palette for security
constructors, in source order, pairing each reflect type with the extraction
of the corresponding value from the host. -/
def securityArgTypes : List (GoType × (Host → SecArg)) :=
  [(GoType.hostI, fun h => SecArg.host h),
   (GoType.networkI, fun h => SecArg.network h.network),
   (GoType.peerIDTy, fun h => SecArg.peerID h.id),
   (GoType.privKeyI, fun h => SecArg.privKey (h.peerstore.privKey h.id)),
   (GoType.pubKeyI, fun h => SecArg.pubKey (h.peerstore.pubKey h.id)),
   (GoType.peerstoreI, fun h => SecArg.peerstore h.peerstore)]

/-- The inner scan of the argument-resolution loop: the first palette entry
whose type implements the declared argument type. -/
def findSecArg : List (GoType × (Host → SecArg)) → GoType →
    Option (Host → SecArg)
  | [], _ => none
  | (ty, mk) :: rest, argType =>
    if implements ty argType then some mk else findSecArg rest argType

/-- The NumOut switch of SecurityConstructor (security.go:71-84): two results
demand an error second and fall through to the first-result check; one result
is checked alone; anything else is rejected.  Note that the source checks the
first result against `transportType` (transport.go:19, the network-transport
interface transport.Transport), not against the secure-channel interface
security.Transport that the deferred closure later asserts
(security.go:115). -/
def securityOutShapeCheck : List GoType → Option String
  | [t0, t1] =>
    if t1 ≠ GoType.errorTy then
      some "expected (optional) second return value from transport constructor to be an error"
    else if implements t0 GoType.netTransportI then none
    else some "expected first return value from transport constructor to be a transport"
  | [t0] =>
    if implements t0 GoType.netTransportI then none
    else some "expected first return value from transport constructor to be a transport"
  | _ => some "expected transport constructor to return a transport and, optionally, an error"

/-- The labelled argument-resolution loop of SecurityConstructor
(security.go:86-97).  The source writes `break outer` where the structure of
the loop calls for `continue outer`: as soon as the first parameter matches a
palette entry the WHOLE loop exits, leaving every later slot of
argConstructors nil (`none` here), and the error return after the inner loop
is therefore only reachable for parameter position 0. -/
def securityArgLoop : List GoType → Except String (List (Option (Host → SecArg)))
  | [] => Except.ok []
  | argType :: rest =>
    match findSecArg securityArgTypes argType with
    | some mk => Except.ok (some mk :: rest.map fun _ => none)
    | none =>
      Except.error ("argument 0 of transport constructor has an unexpected type "
        ++ goTypeName argType)

/-- The Go runtime panic message for calling a nil function, which is what
invoking an argConstructor slot the resolution loop left unset amounts to. -/
def nilArgFault : String :=
  "runtime error: invalid memory address or nil pointer dereference"

/-- The argument-building lines of the deferred security closure
(security.go:99-102): evaluate each argConstructor against the host, left to
right; a nil slot is a runtime fault. -/
def evalSecArgs (h : Host) : List (Option (Host → SecArg)) →
    GoResult (List SecArg)
  | [] => GoResult.ok []
  | some mk :: rest =>
    match evalSecArgs h rest with
    | GoResult.ok args => GoResult.ok (mk h :: args)
    | GoResult.err e => GoResult.err e
    | GoResult.fault m => GoResult.fault m
  | none :: _ => GoResult.fault nilArgFault

/-- The `out[0].Interface().(security.Transport)` assertion of the deferred
closure (security.go:114-115): a value of any other dynamic type is a runtime
fault. -/
def assertSecTransport : SecOutVal → GoResult SecComponent
  | SecOutVal.comp c => GoResult.ok c
  | _ => GoResult.fault "interface conversion: interface {} is not security.Transport"

/-- The result-interpretation switch of the deferred security closure
(security.go:106-118): with two results a non-nil second value is returned as
the error (the first value discarded); otherwise the first value is asserted
to be a security transport; any other arity is the closure's own panic. -/
def interpretSecOut : List SecOutVal → GoResult SecComponent
  | [v0, v1] =>
    match v1 with
    | SecOutVal.errVal (some e) => GoResult.err e
    | SecOutVal.errVal none => assertSecTransport v0
    | _ => GoResult.fault "reflect: IsNil of non-nilable value"
  | [v0] => assertSecTransport v0
  | _ => GoResult.fault "expected 1 or 2 return values from transport constructor"

/-- The deferred closure SecurityConstructor returns for a function
descriptor (security.go:98-119): build the arguments, call the user factory,
interpret its results. -/
def secInvoke (f : SecGoFunc) (argConstructors : List (Option (Host → SecArg)))
    (h : Host) : GoResult SecComponent :=
  match evalSecArgs h argConstructors with
  | GoResult.ok args => interpretSecOut (f.call args)
  | GoResult.err e => GoResult.err e
  | GoResult.fault m => GoResult.fault m

/-- SecurityConstructor (security.go:57-120): a value already implementing
security.Transport is wrapped in a constant constructor; a non-function is
rejected; a function has its result shape checked and its arguments resolved
before the deferred closure is produced. -/
def SecurityConstructor : SecDescriptor → Except String SecC
  | SecDescriptor.inst t => Except.ok fun _ => GoResult.ok t
  | SecDescriptor.nonFunc _ =>
    Except.error "expected a transport constructor (function) or a transport"
  | SecDescriptor.fn f =>
    match securityOutShapeCheck f.outTypes with
    | some e => Except.error e
    | none =>
      match securityArgLoop f.inTypes with
      | Except.error e => Except.error e
      | Except.ok argConstructors => Except.ok (secInvoke f argConstructors)

/-- A dynamic value a multiplexer factory can be given as an argument: the
values produced by the muxArgTypes palette (muxer.go:24-44). -/
inductive MuxArg where
  | host (h : Host)
  | network (n : Nat)
  | peerID (id : String)
  | peerstore (p : Peerstore)

/-- A dynamic value a multiplexer factory can return. -/
inductive MuxOutVal where
  | comp (c : MuxComponent)
  | errVal (e : Option String)
  | otherVal (name : String)

/-- A user-supplied factory function offered to MuxerConstructor. -/
structure MuxGoFunc where
  inTypes : List GoType
  outTypes : List GoType
  call : List MuxArg → List MuxOutVal

/-- The argument an `interface{}` parameter of MuxerConstructor can hold. -/
inductive MuxDescriptor where
  | inst (t : MuxComponent)
  | fn (f : MuxGoFunc)
  | nonFunc (name : String)

/-- muxArgTypes (muxer.go:24-44): the capability palette for multiplexer
constructors, in source order. -/
def muxArgTypes : List (GoType × (Host → MuxArg)) :=
  [(GoType.hostI, fun h => MuxArg.host h),
   (GoType.networkI, fun h => MuxArg.network h.network),
   (GoType.peerIDTy, fun h => MuxArg.peerID h.id),
   (GoType.peerstoreI, fun h => MuxArg.peerstore h.peerstore)]

/-- The inner scan of the multiplexer argument-resolution loop. -/
def findMuxArg : List (GoType × (Host → MuxArg)) → GoType →
    Option (Host → MuxArg)
  | [], _ => none
  | (ty, mk) :: rest, argType =>
    if implements ty argType then some mk else findMuxArg rest argType

/-- The NumOut switch of MuxerConstructor (muxer.go:62-75).  Like its security
sibling it checks the first result against `transportType`
(transport.go:19, the network-transport interface), not against the
mux.Transport interface that the deferred closure later asserts
(muxer.go:106). -/
def muxerOutShapeCheck : List GoType → Option String
  | [t0, t1] =>
    if t1 ≠ GoType.errorTy then
      some "expected (optional) second return value from transport constructor to be an error"
    else if implements t0 GoType.netTransportI then none
    else some "expected first return value from transport constructor to be a transport"
  | [t0] =>
    if implements t0 GoType.netTransportI then none
    else some "expected first return value from transport constructor to be a transport"
  | _ => some "expected transport constructor to return a transport and, optionally, an error"

/-- The labelled argument-resolution loop of MuxerConstructor
(muxer.go:77-88), with the same `break outer` early exit as its security
sibling: later slots stay nil and the position error is only reachable for
parameter 0. -/
def muxerArgLoop : List GoType → Except String (List (Option (Host → MuxArg)))
  | [] => Except.ok []
  | argType :: rest =>
    match findMuxArg muxArgTypes argType with
    | some mk => Except.ok (some mk :: rest.map fun _ => none)
    | none =>
      Except.error ("argument 0 of transport constructor has an unexpected type "
        ++ goTypeName argType)

/-- The argument-building lines of the deferred multiplexer closure
(muxer.go:90-93). -/
def evalMuxArgs (h : Host) : List (Option (Host → MuxArg)) →
    GoResult (List MuxArg)
  | [] => GoResult.ok []
  | some mk :: rest =>
    match evalMuxArgs h rest with
    | GoResult.ok args => GoResult.ok (mk h :: args)
    | GoResult.err e => GoResult.err e
    | GoResult.fault m => GoResult.fault m
  | none :: _ => GoResult.fault nilArgFault

/-- The `out[0].Interface().(mux.Transport)` assertion of the deferred
multiplexer closure (muxer.go:105-106). -/
def assertMuxTransport : MuxOutVal → GoResult MuxComponent
  | MuxOutVal.comp c => GoResult.ok c
  | _ => GoResult.fault "interface conversion: interface {} is not mux.Transport"

/-- The result-interpretation switch of the deferred multiplexer closure
(muxer.go:97-109). -/
def interpretMuxOut : List MuxOutVal → GoResult MuxComponent
  | [v0, v1] =>
    match v1 with
    | MuxOutVal.errVal (some e) => GoResult.err e
    | MuxOutVal.errVal none => assertMuxTransport v0
    | _ => GoResult.fault "reflect: IsNil of non-nilable value"
  | [v0] => assertMuxTransport v0
  | _ => GoResult.fault "expected 1 or 2 return values from transport constructor"

/-- The deferred closure MuxerConstructor returns for a function descriptor
(muxer.go:89-110). -/
def muxInvoke (f : MuxGoFunc) (argConstructors : List (Option (Host → MuxArg)))
    (h : Host) : GoResult MuxComponent :=
  match evalMuxArgs h argConstructors with
  | GoResult.ok args => interpretMuxOut (f.call args)
  | GoResult.err e => GoResult.err e
  | GoResult.fault m => GoResult.fault m

/-- MuxerConstructor (muxer.go:48-111): instance pass-through, non-function
rejection, result-shape check, argument resolution, deferred closure. -/
def MuxerConstructor : MuxDescriptor → Except String MuxC
  | MuxDescriptor.inst t => Except.ok fun _ => GoResult.ok t
  | MuxDescriptor.nonFunc _ =>
    Except.error "expected a transport constructor (function) or a transport"
  | MuxDescriptor.fn f =>
    match muxerOutShapeCheck f.outTypes with
    | some e => Except.error e
    | none =>
      match muxerArgLoop f.inTypes with
      | Except.error e => Except.error e
      | Except.ok argConstructors => Except.ok (muxInvoke f argConstructors)

/-- A dynamic value a transport factory can be given as an argument: the
values produced by the transportArgTypes palette (transport.go:21-69). -/
inductive TptArg where
  | upgrader (u : Upgrader)
  | host (h : Host)
  | network (n : Nat)
  | muxer (m : MuxComponent)
  | secure (s : SecComponent)
  | protector (p : Nat)
  | filters (f : Nat)
  | peerID (id : String)
  | privKey (k : Nat)
  | pubKey (k : Nat)
  | peerstore (p : Peerstore)

/-- A dynamic value a transport factory can return. -/
inductive TptOutVal where
  | comp (c : TptComponent)
  | errVal (e : Option String)
  | otherVal (name : String)

/-- A user-supplied factory function offered to TransportConstructor. -/
structure TptGoFunc where
  inTypes : List GoType
  outTypes : List GoType
  call : List TptArg → List TptOutVal

/-- The argument an `interface{}` parameter of TransportConstructor can
hold. -/
inductive TptDescriptor where
  | inst (t : TptComponent)
  | fn (f : TptGoFunc)
  | nonFunc (name : String)

/-- transportArgTypes (transport.go:21-69): the capability palette for
transport constructors, in source order. -/
def transportArgTypes : List (GoType × (Host → Upgrader → TptArg)) :=
  [(GoType.upgraderPtr, fun _ u => TptArg.upgrader u),
   (GoType.hostI, fun h _ => TptArg.host h),
   (GoType.networkI, fun h _ => TptArg.network h.network),
   (GoType.muxTransportI, fun _ u => TptArg.muxer u.muxer),
   (GoType.securityTransportI, fun _ u => TptArg.secure u.secure),
   (GoType.protectorI, fun _ u => TptArg.protector u.protector),
   (GoType.filtersPtr, fun _ u => TptArg.filters u.filters),
   (GoType.peerIDTy, fun h _ => TptArg.peerID h.id),
   (GoType.privKeyI, fun h _ => TptArg.privKey (h.peerstore.privKey h.id)),
   (GoType.pubKeyI, fun h _ => TptArg.pubKey (h.peerstore.pubKey h.id)),
   (GoType.peerstoreI, fun h _ => TptArg.peerstore h.peerstore)]

/-- The inner scan of the transport argument-resolution loop. -/
def findTptArg : List (GoType × (Host → Upgrader → TptArg)) → GoType →
    Option (Host → Upgrader → TptArg)
  | [], _ => none
  | (ty, mk) :: rest, argType =>
    if implements ty argType then some mk else findTptArg rest argType

/-- The NumOut switch of TransportConstructor (transport.go:105-118); here
`transportType` is the right interface for the component kind. -/
def transportOutShapeCheck : List GoType → Option String
  | [t0, t1] =>
    if t1 ≠ GoType.errorTy then
      some "expected (optional) second return value from transport constructor to be an error"
    else if implements t0 GoType.netTransportI then none
    else some "expected first return value from transport constructor to be a transport"
  | [t0] =>
    if implements t0 GoType.netTransportI then none
    else some "expected first return value from transport constructor to be a transport"
  | _ => some "expected transport constructor to return a transport and, optionally, an error"

/-- The labelled argument-resolution loop of TransportConstructor
(transport.go:120-131), with the same `break outer` early exit as its
siblings: later slots stay nil and the position error is only reachable for
parameter 0. -/
def transportArgLoop : List GoType →
    Except String (List (Option (Host → Upgrader → TptArg)))
  | [] => Except.ok []
  | argType :: rest =>
    match findTptArg transportArgTypes argType with
    | some mk => Except.ok (some mk :: rest.map fun _ => none)
    | none =>
      Except.error ("argument 0 of transport constructor has an unexpected type "
        ++ goTypeName argType)

/-- The argument-building lines of the deferred transport closure
(transport.go:133-136). -/
def evalTptArgs (h : Host) (u : Upgrader) :
    List (Option (Host → Upgrader → TptArg)) → GoResult (List TptArg)
  | [] => GoResult.ok []
  | some mk :: rest =>
    match evalTptArgs h u rest with
    | GoResult.ok args => GoResult.ok (mk h u :: args)
    | GoResult.err e => GoResult.err e
    | GoResult.fault m => GoResult.fault m
  | none :: _ => GoResult.fault nilArgFault

/-- The `out[0].Interface().(transport.Transport)` assertion of the deferred
transport closure (transport.go:148-149). -/
def assertTptTransport : TptOutVal → GoResult TptComponent
  | TptOutVal.comp c => GoResult.ok c
  | _ => GoResult.fault "interface conversion: interface {} is not transport.Transport"

/-- The result-interpretation switch of the deferred transport closure
(transport.go:140-152). -/
def interpretTptOut : List TptOutVal → GoResult TptComponent
  | [v0, v1] =>
    match v1 with
    | TptOutVal.errVal (some e) => GoResult.err e
    | TptOutVal.errVal none => assertTptTransport v0
    | _ => GoResult.fault "reflect: IsNil of non-nilable value"
  | [v0] => assertTptTransport v0
  | _ => GoResult.fault "expected 1 or 2 return values from transport constructor"

/-- The deferred closure TransportConstructor returns for a function
descriptor (transport.go:132-153). -/
def tptInvoke (f : TptGoFunc)
    (argConstructors : List (Option (Host → Upgrader → TptArg)))
    (h : Host) (u : Upgrader) : GoResult TptComponent :=
  match evalTptArgs h u argConstructors with
  | GoResult.ok args => interpretTptOut (f.call args)
  | GoResult.err e => GoResult.err e
  | GoResult.fault m => GoResult.fault m

/-- TransportConstructor (transport.go:91-154): instance pass-through,
non-function rejection, result-shape check, argument resolution, deferred
closure. -/
def TransportConstructor : TptDescriptor → Except String TptC
  | TptDescriptor.inst t => Except.ok fun _ _ => GoResult.ok t
  | TptDescriptor.nonFunc _ =>
    Except.error "expected a transport constructor (function) or a transport"
  | TptDescriptor.fn f =>
    match transportOutShapeCheck f.outTypes with
    | some e => Except.error e
    | none =>
      match transportArgLoop f.inTypes with
      | Except.error e => Except.error e
      | Except.ok argConstructors => Except.ok (tptInvoke f argConstructors)

/-- The factory-invocation loop of makeTransports (transport.go:158-165):
invoke each constructor in order against host and upgrader, abort on the
first error, and collect the results in input order. -/
def transportsLoop (h : Host) (u : Upgrader) (acc : List TptComponent) :
    List TptC → GoResult (List TptComponent)
  | [] => GoResult.ok acc
  | tC :: rest =>
    match tC h u with
    | GoResult.fault m => GoResult.fault m
    | GoResult.err e => GoResult.err e
    | GoResult.ok t => transportsLoop h u (acc ++ [t]) rest

/-- makeTransports (transport.go:156-169): on a non-empty list invoke every
constructor in order (no error gives all results, order preserved); on an
empty list install the two defaults, TCP first and WebSocket second, each
built over the upgrader. -/
def makeTransports (h : Host) (u : Upgrader) (tpts : List TptC) :
    GoResult (List TptComponent) :=
  if 0 < tpts.length then transportsLoop h u [] tpts
  else GoResult.ok [TptComponent.tcp u, TptComponent.ws u]

/-! ## Sample inputs used by the concrete evaluations below -/

/-- A concrete host context. -/
def sampleHost : Host :=
  { id := "QmSelf", network := 7,
    peerstore := { privKey := fun _ => 11, pubKey := fun _ => 12 } }

/-- A concrete upgrader. -/
def sampleUpgrader : Upgrader :=
  { muxer := MuxComponent.other "m", secure := SecComponent.other "s",
    protector := 3, filters := 4 }

/-- A security factory that succeeds with a secio transport for the host. -/
def okSecFactory : SecC := fun h => GoResult.ok (SecComponent.secio h.id 5)

/-- A second succeeding security factory. -/
def okSecFactory2 : SecC := fun _ => GoResult.ok (SecComponent.other "sec2")

/-- A security factory that fails. -/
def errSecFactory : SecC := fun _ => GoResult.err "boom"

/-- A security factory whose resolved component is the raw insecure
transport, the designated no-security sentinel. -/
def insecureFactory : SecC := fun _ => GoResult.ok (SecComponent.insecure "QmSelf")

/-- A multiplexer factory that succeeds. -/
def okMuxFactory : MuxC := fun _ => GoResult.ok (MuxComponent.other "custom")

/-- A multiplexer factory that fails. -/
def errMuxFactory : MuxC := fun _ => GoResult.err "boom"

/-- A transport factory that succeeds with a TCP transport. -/
def okTptFactory : TptC := fun _ u => GoResult.ok (TptComponent.tcp u)

/-- A transport factory that succeeds with a WebSocket transport. -/
def okTptFactory2 : TptC := fun _ u => GoResult.ok (TptComponent.ws u)

/-- A transport factory that fails. -/
def errTptFactory : TptC := fun _ _ => GoResult.err "boom"

/-! ## Claims -/

/-- C1.  The claim says a list with two entries under the same protocol ID
makes resolution fail with a duplicate-ID error before any factory is
invoked.  The code does not do this: the duplicate pre-check never inserts
into its set, so on the security side the duplicated list is processed and
the first factory's own error surfaces (first conjunct) or both duplicates
are installed (second conjunct); on the muxer side the inverted length test
routes every non-empty list — duplicated or not — to the built-in defaults
(third conjunct). -/
theorem duplicate_ids_undetected :
    makeSecurityTransport sampleHost
        [⟨errSecFactory, "a"⟩, ⟨okSecFactory, "a"⟩] = GoResult.err "boom"
  ∧ makeSecurityTransport sampleHost
        [⟨okSecFactory, "a"⟩, ⟨okSecFactory2, "a"⟩]
      = GoResult.ok (SecComponent.ssmuxer
          [("a", SecComponent.secio "QmSelf" 5), ("a", SecComponent.other "sec2")])
  ∧ makeMuxer sampleHost [⟨okMuxFactory, "a"⟩, ⟨errMuxFactory, "a"⟩]
      = GoResult.ok (MuxComponent.msmux
          [("/yamux/1.0.0", MuxComponent.yamuxDefault),
           ("/mplex/6.3.0", MuxComponent.mplexDefault)]) :=
  ⟨rfl, rfl, rfl⟩

/-- C2.  On the empty descriptor list the transport aggregator does return
exactly TCP then WebSocket, and the secure-channel aggregator does install
exactly the secio default bound to the host's own identity key; but the
stream-multiplexer aggregator — whose inverted length test sends the empty
list through the (vacuous) invocation branch — returns an EMPTY dispatcher
instead of the two documented defaults. -/
theorem defaults_on_empty_lists (h : Host) (u : Upgrader) :
    makeTransports h u [] = GoResult.ok [TptComponent.tcp u, TptComponent.ws u]
  ∧ makeSecurityTransport h []
      = GoResult.ok (SecComponent.ssmuxer
          [(secioID, SecComponent.secio h.id (h.peerstore.privKey h.id))])
  ∧ makeMuxer h [] = GoResult.ok (MuxComponent.msmux []) :=
  ⟨rfl, rfl, rfl⟩

/-- C3.  For non-empty inputs the transport aggregator does invoke the
factories in input order, aborting at the first failure (first conjunct) and
collecting every result in order on success (second conjunct), and the
secure-channel aggregator does the same (third conjunct); but the
stream-multiplexer aggregator never invokes a supplied factory: any
non-empty list is answered with the two built-in defaults (fourth
conjunct). -/
theorem aggregation_invocation_and_abort :
    makeTransports sampleHost sampleUpgrader
        [okTptFactory, errTptFactory, okTptFactory2] = GoResult.err "boom"
  ∧ makeTransports sampleHost sampleUpgrader [okTptFactory, okTptFactory2]
      = GoResult.ok [TptComponent.tcp sampleUpgrader, TptComponent.ws sampleUpgrader]
  ∧ makeSecurityTransport sampleHost [⟨okSecFactory, "a"⟩, ⟨okSecFactory2, "b"⟩]
      = GoResult.ok (SecComponent.ssmuxer
          [("a", SecComponent.secio "QmSelf" 5), ("b", SecComponent.other "sec2")])
  ∧ makeMuxer sampleHost [⟨okMuxFactory, "/custom/1.0.0"⟩]
      = GoResult.ok (MuxComponent.msmux
          [("/yamux/1.0.0", MuxComponent.yamuxDefault),
           ("/mplex/6.3.0", MuxComponent.mplexDefault)]) :=
  ⟨rfl, rfl, rfl, rfl⟩

/-- C10.  The forbidden-component test of the secure-channel aggregator is an
exact concrete-type assertion: it recognises the raw insecure transport
(first conjunct) but not the value the dedicated disable-security path
makeInsecureTransport produces, an SSMuxer merely wrapping the insecure
transport (second conjunct); a factory returning that wrapped value therefore
passes the check and is installed in the dispatcher (third conjunct). -/
theorem insecure_check_exact_type (h : Host) (id pid : String) :
    isInsecureTransport (SecComponent.insecure id) = true
  ∧ isInsecureTransport (makeInsecureTransport id) = false
  ∧ makeSecurityTransport h [⟨fun _ => GoResult.ok (makeInsecureTransport id), pid⟩]
      = GoResult.ok (SecComponent.ssmuxer [(pid, makeInsecureTransport id)]) :=
  ⟨rfl, rfl, rfl⟩

/-- A factory declared to return one value of the secure-channel interface
type security.Transport — by the claim, exactly what SecurityConstructor
should accept. -/
def secIfaceRetFactory : SecGoFunc :=
  { inTypes := [], outTypes := [GoType.securityTransportI],
    call := fun _ => [SecOutVal.comp (SecComponent.other "sec")] }

/-- A factory declared to return one value of the multiplexer interface type
mux.Transport — by the claim, exactly what MuxerConstructor should accept. -/
def muxIfaceRetFactory : MuxGoFunc :=
  { inTypes := [], outTypes := [GoType.muxTransportI],
    call := fun _ => [MuxOutVal.comp (MuxComponent.other "mux")] }

/-- A factory offered to SecurityConstructor although it is declared to
return a TCP network transport, which satisfies no secure-channel
contract; dynamically it indeed returns a non-security value. -/
def tcpRetSecFactory : SecGoFunc :=
  { inTypes := [], outTypes := [GoType.tcpT],
    call := fun _ => [SecOutVal.otherVal "TcpTransport"] }

/-- A factory declared with three results, an arity outside the two accepted
shapes. -/
def threeOutTptFactory : TptGoFunc :=
  { inTypes := [],
    outTypes := [GoType.netTransportI, GoType.netTransportI, GoType.errorTy],
    call := fun _ => [] }

/-- A factory declaring two parameters, both of the palette-satisfiable type
host.Host, declared and dynamically returning a network transport. -/
def twoParamTptFactory : TptGoFunc :=
  { inTypes := [GoType.hostI, GoType.hostI],
    outTypes := [GoType.netTransportI],
    call := fun _ => [TptOutVal.comp (TptComponent.other "fromFactory")] }

/-- C4.  The claim says parameter resolution yields one extraction function
per declared parameter and reports the position of any unsatisfiable
parameter.  Because the resolution loop exits entirely at the first matching
parameter (`break outer`), a factory with two satisfiable parameters gets an
extraction function only for position 0, the second slot staying unset
(first and third conjuncts); a factory whose unsatisfiable parameter sits at
position 1 is not reported at all, resolution succeeding with the slot unset
(second conjunct); only position 0 can ever be reported (fourth conjunct). -/
theorem arg_resolution_break_bug :
    Except.map (List.map Option.isSome)
        (transportArgLoop [GoType.hostI, GoType.hostI]) = Except.ok [true, false]
  ∧ Except.map (List.map Option.isSome)
        (transportArgLoop [GoType.hostI, GoType.otherTy "CustomThing"])
      = Except.ok [true, false]
  ∧ Except.map (List.map Option.isSome)
        (securityArgLoop [GoType.networkI, GoType.networkI]) = Except.ok [true, false]
  ∧ securityArgLoop [GoType.otherTy "CustomThing"]
      = Except.error
          "argument 0 of transport constructor has an unexpected type CustomThing" :=
  ⟨rfl, rfl, rfl, rfl⟩

/-- C5.  The claim says each normalizer accepts a factory exactly when its
declared results are one value satisfying the respective component kind's
contract, optionally followed by an error.  SecurityConstructor and
MuxerConstructor instead validate the first result against the
network-transport interface `transportType`: a factory declared to return
security.Transport is rejected (first conjunct), one declared to return
mux.Transport is rejected (second conjunct), while SecurityConstructor
accepts a factory declared to return a TCP network transport — whose deferred
invocation then faults on the security.Transport assertion (third conjunct).
The arity rule itself is enforced (fourth conjunct). -/
theorem result_shape_wrong_interface :
    SecurityConstructor (SecDescriptor.fn secIfaceRetFactory)
      = Except.error
          "expected first return value from transport constructor to be a transport"
  ∧ MuxerConstructor (MuxDescriptor.fn muxIfaceRetFactory)
      = Except.error
          "expected first return value from transport constructor to be a transport"
  ∧ Except.map (fun d => d sampleHost)
        (SecurityConstructor (SecDescriptor.fn tcpRetSecFactory))
      = Except.ok
          (GoResult.fault "interface conversion: interface {} is not security.Transport")
  ∧ TransportConstructor (TptDescriptor.fn threeOutTptFactory)
      = Except.error
          "expected transport constructor to return a transport and, optionally, an error" :=
  ⟨rfl, rfl, rfl, rfl⟩

/-- C7.  A descriptor that is already a concrete component instance is
normalized, by every one of the three normalizers, into a deferred factory
that ignores the host context (and upgrader) and always returns exactly that
instance with no error: for every instance and every context the result is
`ok` of the instance itself. -/
theorem prebuilt_instances_pass_through (h : Host) (u : Upgrader)
    (s : SecComponent) (m : MuxComponent) (t : TptComponent) :
    Except.map (fun d => d h) (SecurityConstructor (SecDescriptor.inst s))
      = Except.ok (GoResult.ok s)
  ∧ Except.map (fun d => d h) (MuxerConstructor (MuxDescriptor.inst m))
      = Except.ok (GoResult.ok m)
  ∧ Except.map (fun d => d h u) (TransportConstructor (TptDescriptor.inst t))
      = Except.ok (GoResult.ok t) :=
  ⟨rfl, rfl, rfl⟩

/-- C6, counterexample.  A normalized factory with two declared (and
satisfiable) parameters: the claim says invoking its deferred factory calls
the user factory and returns its interpreted output, but the deferred
invocation faults on the unset second argument slot and never returns the
factory's value. -/
theorem deferred_two_param_faults :
    Except.map (fun d => d sampleHost sampleUpgrader)
        (TransportConstructor (TptDescriptor.fn twoParamTptFactory))
      = Except.ok (GoResult.fault nilArgFault)
  ∧ Except.map (fun d => d sampleHost sampleUpgrader)
        (TransportConstructor (TptDescriptor.fn twoParamTptFactory))
      ≠ Except.ok (GoResult.ok (TptComponent.other "fromFactory")) :=
  ⟨rfl, fun hcontra => GoResult.noConfusion (Except.ok.inj hcontra)⟩

/-- Evaluation of TransportConstructor on a factory that passes the
result-shape check and whose argument resolution produced the slots `slots`,
all of which evaluated against the context to the argument list `targs`: the
deferred factory interprets the user factory's output on those arguments. -/
theorem tptDeferred_interprets (f : TptGoFunc)
    (slots : List (Option (Host → Upgrader → TptArg))) (targs : List TptArg)
    (h : Host) (u : Upgrader)
    (h1 : transportOutShapeCheck f.outTypes = none)
    (h2 : transportArgLoop f.inTypes = Except.ok slots)
    (h3 : evalTptArgs h u slots = GoResult.ok targs) :
    Except.map (fun d => d h u) (TransportConstructor (TptDescriptor.fn f))
      = Except.ok (interpretTptOut (f.call targs)) := by
  have hd : TransportConstructor (TptDescriptor.fn f)
      = Except.ok (tptInvoke f slots) := by
    simp only [TransportConstructor, h1, h2]
  rw [hd]
  show Except.ok (tptInvoke f slots h u) = _
  unfold tptInvoke
  rw [h3]

/-- Evaluation of SecurityConstructor on a factory that passes the
result-shape check and whose argument resolution produced fully evaluable
slots: the deferred factory interprets the user factory's output on the
extracted arguments. -/
theorem secDeferred_interprets (f : SecGoFunc)
    (slots : List (Option (Host → SecArg))) (sargs : List SecArg) (h : Host)
    (h1 : securityOutShapeCheck f.outTypes = none)
    (h2 : securityArgLoop f.inTypes = Except.ok slots)
    (h3 : evalSecArgs h slots = GoResult.ok sargs) :
    Except.map (fun d => d h) (SecurityConstructor (SecDescriptor.fn f))
      = Except.ok (interpretSecOut (f.call sargs)) := by
  have hd : SecurityConstructor (SecDescriptor.fn f)
      = Except.ok (secInvoke f slots) := by
    simp only [SecurityConstructor, h1, h2]
  rw [hd]
  show Except.ok (secInvoke f slots h) = _
  unfold secInvoke
  rw [h3]

/-- Evaluation of MuxerConstructor on a factory that passes the result-shape
check and whose argument resolution produced fully evaluable slots: the
deferred factory interprets the user factory's output on the extracted
arguments. -/
theorem muxDeferred_interprets (f : MuxGoFunc)
    (slots : List (Option (Host → MuxArg))) (margs : List MuxArg) (h : Host)
    (h1 : muxerOutShapeCheck f.outTypes = none)
    (h2 : muxerArgLoop f.inTypes = Except.ok slots)
    (h3 : evalMuxArgs h slots = GoResult.ok margs) :
    Except.map (fun d => d h) (MuxerConstructor (MuxDescriptor.fn f))
      = Except.ok (interpretMuxOut (f.call margs)) := by
  have hd : MuxerConstructor (MuxDescriptor.fn f)
      = Except.ok (muxInvoke f slots) := by
    simp only [MuxerConstructor, h1, h2]
  rw [hd]
  show Except.ok (muxInvoke f slots h) = _
  unfold muxInvoke
  rw [h3]

/-- C6, amended.  For every normalized factory — of any of the three kinds —
all of whose declared parameters were resolved to extraction functions
(hypotheses: the shape check passed, resolution produced the slots, and every
slot evaluated against the context, which with the resolution loop as
written covers factories declaring no parameter or one parameter), invoking
the deferred factory calls the user factory on the arguments extracted from
the context and interprets its output: a single result is returned as the
component with no error; with two results, an absent error returns the first
value as the component, and a present error is returned as the error with
the first value discarded — the user factory's error is surfaced, never
swallowed.  Stated for TransportConstructor, SecurityConstructor and
MuxerConstructor, three output shapes each. -/
theorem deferred_invocation_semantics
    (h : Host) (u : Upgrader) (msg : String)
    (tf : TptGoFunc) (tslots : List (Option (Host → Upgrader → TptArg)))
    (targs : List TptArg) (tc : TptComponent) (tv : TptOutVal)
    (sf : SecGoFunc) (sslots : List (Option (Host → SecArg)))
    (sargs : List SecArg) (sc : SecComponent) (sv : SecOutVal)
    (mf : MuxGoFunc) (mslots : List (Option (Host → MuxArg)))
    (margs : List MuxArg) (mc : MuxComponent) (mv : MuxOutVal)
    (ht1 : transportOutShapeCheck tf.outTypes = none)
    (ht2 : transportArgLoop tf.inTypes = Except.ok tslots)
    (ht3 : evalTptArgs h u tslots = GoResult.ok targs)
    (hs1 : securityOutShapeCheck sf.outTypes = none)
    (hs2 : securityArgLoop sf.inTypes = Except.ok sslots)
    (hs3 : evalSecArgs h sslots = GoResult.ok sargs)
    (hm1 : muxerOutShapeCheck mf.outTypes = none)
    (hm2 : muxerArgLoop mf.inTypes = Except.ok mslots)
    (hm3 : evalMuxArgs h mslots = GoResult.ok margs) :
    ((tf.call targs = [TptOutVal.comp tc] →
        Except.map (fun d => d h u) (TransportConstructor (TptDescriptor.fn tf))
          = Except.ok (GoResult.ok tc))
    ∧ (tf.call targs = [TptOutVal.comp tc, TptOutVal.errVal none] →
        Except.map (fun d => d h u) (TransportConstructor (TptDescriptor.fn tf))
          = Except.ok (GoResult.ok tc))
    ∧ (tf.call targs = [tv, TptOutVal.errVal (some msg)] →
        Except.map (fun d => d h u) (TransportConstructor (TptDescriptor.fn tf))
          = Except.ok (GoResult.err msg)))
  ∧ ((sf.call sargs = [SecOutVal.comp sc] →
        Except.map (fun d => d h) (SecurityConstructor (SecDescriptor.fn sf))
          = Except.ok (GoResult.ok sc))
    ∧ (sf.call sargs = [SecOutVal.comp sc, SecOutVal.errVal none] →
        Except.map (fun d => d h) (SecurityConstructor (SecDescriptor.fn sf))
          = Except.ok (GoResult.ok sc))
    ∧ (sf.call sargs = [sv, SecOutVal.errVal (some msg)] →
        Except.map (fun d => d h) (SecurityConstructor (SecDescriptor.fn sf))
          = Except.ok (GoResult.err msg)))
  ∧ ((mf.call margs = [MuxOutVal.comp mc] →
        Except.map (fun d => d h) (MuxerConstructor (MuxDescriptor.fn mf))
          = Except.ok (GoResult.ok mc))
    ∧ (mf.call margs = [MuxOutVal.comp mc, MuxOutVal.errVal none] →
        Except.map (fun d => d h) (MuxerConstructor (MuxDescriptor.fn mf))
          = Except.ok (GoResult.ok mc))
    ∧ (mf.call margs = [mv, MuxOutVal.errVal (some msg)] →
        Except.map (fun d => d h) (MuxerConstructor (MuxDescriptor.fn mf))
          = Except.ok (GoResult.err msg))) := by
  refine ⟨⟨?_, ?_, ?_⟩, ⟨?_, ?_, ?_⟩, ⟨?_, ?_, ?_⟩⟩
  · intro hcall
    rw [tptDeferred_interprets tf tslots targs h u ht1 ht2 ht3, hcall]; rfl
  · intro hcall
    rw [tptDeferred_interprets tf tslots targs h u ht1 ht2 ht3, hcall]; rfl
  · intro hcall
    rw [tptDeferred_interprets tf tslots targs h u ht1 ht2 ht3, hcall]; rfl
  · intro hcall
    rw [secDeferred_interprets sf sslots sargs h hs1 hs2 hs3, hcall]; rfl
  · intro hcall
    rw [secDeferred_interprets sf sslots sargs h hs1 hs2 hs3, hcall]; rfl
  · intro hcall
    rw [secDeferred_interprets sf sslots sargs h hs1 hs2 hs3, hcall]; rfl
  · intro hcall
    rw [muxDeferred_interprets mf mslots margs h hm1 hm2 hm3, hcall]; rfl
  · intro hcall
    rw [muxDeferred_interprets mf mslots margs h hm1 hm2 hm3, hcall]; rfl
  · intro hcall
    rw [muxDeferred_interprets mf mslots margs h hm1 hm2 hm3, hcall]; rfl

/-- A one-host-parameter transport factory with a single result. -/
def onePOk : TptGoFunc :=
  { inTypes := [GoType.hostI], outTypes := [GoType.netTransportI],
    call := fun _ => [TptOutVal.comp (TptComponent.other "one")] }

/-- A parameterless security factory returning a component and a nil error
(declared, because of the shape check traced in C5, as returning a network
transport). -/
def secZeroPOkErrNil : SecGoFunc :=
  { inTypes := [], outTypes := [GoType.netTransportI, GoType.errorTy],
    call := fun _ => [SecOutVal.comp (SecComponent.other "sec-ok"),
                      SecOutVal.errVal none] }

/-- A parameterless multiplexer factory returning a discarded first value and
a present error. -/
def muxZeroPErr : MuxGoFunc :=
  { inTypes := [], outTypes := [GoType.netTransportI, GoType.errorTy],
    call := fun _ => [MuxOutVal.comp (MuxComponent.other "mux-discarded"),
                      MuxOutVal.errVal (some "factory failed")] }

/-- C6, witness: the amended deferred-invocation semantics at concrete
factories of all three kinds — a one-parameter transport factory with a
single result, a parameterless security factory with a nil error, and a
parameterless multiplexer factory with a present error. -/
theorem deferred_invocation_semantics_witness :
    Except.map (fun d => d sampleHost sampleUpgrader)
        (TransportConstructor (TptDescriptor.fn onePOk))
      = Except.ok (GoResult.ok (TptComponent.other "one"))
  ∧ Except.map (fun d => d sampleHost)
        (SecurityConstructor (SecDescriptor.fn secZeroPOkErrNil))
      = Except.ok (GoResult.ok (SecComponent.other "sec-ok"))
  ∧ Except.map (fun d => d sampleHost)
        (MuxerConstructor (MuxDescriptor.fn muxZeroPErr))
      = Except.ok (GoResult.err "factory failed") := by
  have X := deferred_invocation_semantics sampleHost sampleUpgrader
    "factory failed"
    onePOk [some fun (hh : Host) (_ : Upgrader) => TptArg.host hh]
    [TptArg.host sampleHost] (TptComponent.other "one")
    (TptOutVal.comp (TptComponent.other "one"))
    secZeroPOkErrNil [] [] (SecComponent.other "sec-ok")
    (SecOutVal.comp (SecComponent.other "sec-ok"))
    muxZeroPErr [] [] (MuxComponent.other "unused")
    (MuxOutVal.comp (MuxComponent.other "mux-discarded"))
    rfl rfl rfl rfl rfl rfl rfl rfl rfl
  exact ⟨X.1.1 rfl, X.2.1.2.1 rfl, X.2.2.2.2 rfl⟩

/-- With the empty starting set the duplicate pre-check can never fire, on
any list: nothing is ever inserted into the set it consults. -/
theorem securityDupCheck_empty : ∀ l : List MsSecC, securityDupCheck [] l = none
  | [] => rfl
  | _ :: t => securityDupCheck_empty t

/-- In the security invocation loop, if every entry before some entry
resolves to a non-sentinel component and that entry resolves to the raw
insecure transport, the loop returns the forbidden-component error, whatever
the accumulated muxer state. -/
theorem securityInstallLoop_sentinel (h : Host) (entry : MsSecC)
    (post : List MsSecC)
    (hsent : ∃ c, entry.secC h = GoResult.ok c ∧ isInsecureTransport c = true) :
    ∀ (pre : List MsSecC) (acc : List (String × SecComponent)),
      (∀ m ∈ pre, ∃ c, m.secC h = GoResult.ok c ∧ isInsecureTransport c = false) →
      securityInstallLoop h acc (pre ++ entry :: post) = GoResult.err insecureErrMsg
  | [], acc, _ => by
      obtain ⟨c, hc, hins⟩ := hsent
      simp only [List.nil_append, securityInstallLoop, hc, hins, if_true]
  | m :: t, acc, hpre => by
      obtain ⟨c, hc, hins⟩ := hpre m (List.mem_cons_self m t)
      have ih := securityInstallLoop_sentinel h entry post hsent t
        (acc ++ [(m.ID, c)]) (fun x hx => hpre x (List.mem_cons_of_mem m hx))
      simp only [List.cons_append, securityInstallLoop, hc, hins]
      simpa using ih

/-- Unfolding of makeSecurityTransport on a non-empty list: the duplicate
pre-check never fires, so the result is that of the invocation loop. -/
theorem makeSecurityTransport_cons (h : Host) (a : MsSecC) (l : List MsSecC) :
    makeSecurityTransport h (a :: l) =
      match securityInstallLoop h [] (a :: l) with
      | GoResult.ok entries => GoResult.ok (SecComponent.ssmuxer entries)
      | GoResult.err e2 => GoResult.err e2
      | GoResult.fault m2 => GoResult.fault m2 := by
  unfold makeSecurityTransport
  rw [securityDupCheck_empty, if_pos (show 0 < (a :: l).length by simp)]

/-- C8.  If, in a keyed descriptor list, every factory before some entry
resolves to a non-sentinel component and that entry's factory resolves to the
designated no-security sentinel (the raw insecure transport), the
secure-channel aggregator fails with the forbidden-component error — so no
dispatcher containing the sentinel entry is returned to the caller. -/
theorem security_rejects_sentinel (h : Host) (pre : List MsSecC)
    (entry : MsSecC) (post : List MsSecC)
    (hpre : ∀ m ∈ pre, ∃ c, m.secC h = GoResult.ok c ∧ isInsecureTransport c = false)
    (hsent : ∃ c, entry.secC h = GoResult.ok c ∧ isInsecureTransport c = true) :
    makeSecurityTransport h (pre ++ entry :: post) = GoResult.err insecureErrMsg := by
  obtain ⟨a, l, hal⟩ : ∃ a l, pre ++ entry :: post = a :: l := by
    cases pre with
    | nil => exact ⟨entry, post, rfl⟩
    | cons x xs => exact ⟨x, xs ++ entry :: post, rfl⟩
  rw [hal, makeSecurityTransport_cons, ← hal,
    securityInstallLoop_sentinel h entry post hsent pre [] hpre]

/-- C8, witness: a single keyed descriptor whose factory resolves to the raw
insecure transport is rejected with the forbidden-component error. -/
theorem security_rejects_sentinel_witness :
    insecureFactory sampleHost = GoResult.ok (SecComponent.insecure "QmSelf")
  ∧ makeSecurityTransport sampleHost [⟨insecureFactory, "no-sec"⟩]
      = GoResult.err insecureErrMsg :=
  ⟨rfl, security_rejects_sentinel sampleHost [] ⟨insecureFactory, "no-sec"⟩ []
    (fun m hm => absurd hm (List.not_mem_nil m))
    ⟨SecComponent.insecure "QmSelf", rfl, rfl⟩⟩

/-- Protocol-ID key list of a secure-channel aggregation result. -/
def secKeys : GoResult SecComponent → Option (List String)
  | GoResult.ok (SecComponent.ssmuxer es) => some (es.map Prod.fst)
  | _ => none

/-- Protocol-ID key list of a multiplexer aggregation result. -/
def muxKeys : GoResult MuxComponent → Option (List String)
  | GoResult.ok (MuxComponent.msmux es) => some (es.map Prod.fst)
  | _ => none

/-- C9.  Aggregation is a pure function of the descriptor list and the host
context (plus the upgrader for transports): resolving the same list twice
against equivalent (equal) contexts yields dispatchers with identical key
sets, and for the transport aggregator the very same result list, same
length and order. -/
theorem resolution_deterministic (h1 h2 : Host) (u1 u2 : Upgrader)
    (ss : List MsSecC) (ms : List MsMuxC) (ts : List TptC)
    (hh : h1 = h2) (hu : u1 = u2) :
    secKeys (makeSecurityTransport h1 ss) = secKeys (makeSecurityTransport h2 ss)
  ∧ muxKeys (makeMuxer h1 ms) = muxKeys (makeMuxer h2 ms)
  ∧ makeTransports h1 u1 ts = makeTransports h2 u2 ts := by
  subst hh; subst hu; exact ⟨rfl, rfl, rfl⟩

/-- C9, witness: determinism at a concrete host, upgrader and descriptor
lists. -/
theorem resolution_deterministic_witness :
    secKeys (makeSecurityTransport sampleHost [⟨okSecFactory, "a"⟩])
      = secKeys (makeSecurityTransport sampleHost [⟨okSecFactory, "a"⟩])
  ∧ muxKeys (makeMuxer sampleHost []) = muxKeys (makeMuxer sampleHost [])
  ∧ makeTransports sampleHost sampleUpgrader []
      = makeTransports sampleHost sampleUpgrader [] :=
  resolution_deterministic sampleHost sampleHost sampleUpgrader sampleUpgrader
    [⟨okSecFactory, "a"⟩] [] [] rfl rfl

end GoLibp2p
